import Mathlib

/-!
Verification of the package-risk-analysis mock service
(`tests/mock_server.py`): data model, submission validation,
job creation and status polling.

The embedding follows the Python source closely:
* JSON payloads are modelled by the inductive `JSON`;
* the voluptuous schema of `put_packages` becomes the boolean
  predicate `packages_schema`;
* the generator `update_status` becomes the fixed list of statuses
  together with an index cursor stored per job (`job_status`);
* the two global dicts `jobs` and `job_status` become association
  lists inside `ServerState`;
* `uuid4()` is modelled as a fresh-name supply: a counter in the
  state whose value is the next issued job identifier;
* `time.time()` is modelled by passing the current clock value to
  each operation.
-/

namespace MockServer

/-- Decoded JSON values, as produced by `request.json`. -/
inductive JSON where
  | null : JSON
  | str : String → JSON
  | num : Int → JSON
  | boolean : Bool → JSON
  | arr : List JSON → JSON
  | obj : List (String × JSON) → JSON
deriving Repr

/-- A heuristic record with a `score` and a `data` payload.  Scores
are written as rationals; `data` is an optional key-value mapping. -/
structure Heuristic where
  score : Rat
  data : Option (List (String × String))
deriving Repr, DecidableEq

/-- A dependency package record as built by `build_job` (the child
records carry no `dependencies` key). -/
structure DepPackage where
  heuristics : List Heuristic
  last_updated : Nat
  license : Option String
  name : String
  risk : Nat
  status : String
  pkgtype : String
  version : String
  vulnerabilities : List Unit
deriving Repr, DecidableEq

/-- A top-level package record as built by `build_job`, with its
list of dependency records. -/
structure TopPackage where
  heuristics : List Heuristic
  last_updated : Nat
  license : Option String
  name : String
  risk : Nat
  status : String
  pkgtype : String
  version : String
  vulnerabilities : List Unit
  dependencies : List DepPackage
deriving Repr, DecidableEq

/-- A job record, mirroring the dict returned by `build_job`. -/
structure Job where
  id : String
  last_updated : Nat
  started_at : Nat
  status : String
  user_id : String
  packages : List TopPackage
deriving Repr, DecidableEq

/-- The fixed job record built by `build_job(job_id)` at clock value
`started_at`.  Every field except the two timestamps is a literal
constant; the `job_id` argument of the Python function is used only
to key the status cursor, not in the record itself. -/
def build_job (started_at : Nat) : Job :=
  { id := "59482a54-423b-448d-8325-f171c9dc336b"
    last_updated := started_at
    started_at := started_at
    status := "PENDING"
    user_id := "86bb664a-5331-489b-8901-f052f155ec79"
    packages :=
      [{ heuristics := [{ score := (314 : Rat)/100, data := some [("foo", "bar")] }]
         last_updated := started_at
         license := none
         name := "foo"
         risk := 60
         status := "NEW"
         pkgtype := "npm"
         version := "1.0.0"
         vulnerabilities := []
         dependencies :=
           [{ heuristics := []
              last_updated := started_at
              license := none
              name := "bar"
              risk := 60
              status := "COMPLETED"
              pkgtype := "npm"
              version := "2.3.4"
              vulnerabilities := [] },
            { heuristics := [{ score := 42, data := none }]
              last_updated := started_at
              license := none
              name := "baz"
              risk := 60
              status := "NEW"
              pkgtype := "npm"
              version := "9.8.7"
              vulnerabilities := [] }] }] }

/-- The status sequence yielded by the generator `update_status`:
`NEW`, `PENDING`, `COMPLETED`, in this order, then exhaustion. -/
def update_status : List String := ["NEW", "PENDING", "COMPLETED"]

/-- Association-list lookup, mirroring `dict.get` (`none` for a
missing key). -/
def alookup (k : Nat) : List (Nat × α) → Option α
  | [] => none
  | (k', v) :: rest => if k = k' then some v else alookup k rest

/-- Association-list update at an existing key, mirroring
`d[k] = v` on a dict that already holds `k`. -/
def aupdate (k : Nat) (v : α) : List (Nat × α) → List (Nat × α)
  | [] => []
  | (k', v') :: rest =>
      if k = k' then (k, v) :: rest else (k', v') :: aupdate k v rest

/-- Lookup of a string key in a decoded JSON object. -/
def jlookup (k : String) : List (String × JSON) → Option JSON
  | [] => none
  | (k', v) :: rest => if k = k' then some v else jlookup k rest

/-- Whether a JSON value is a string (the voluptuous validator
`str`). -/
def isStr : JSON → Bool
  | .str _ => true
  | _ => false

/-- The record schema of `put_packages`: required keys `name`,
`version` and `type`, each validated by the voluptuous `str`
validator.  The value must be a mapping, each of the three keys must
be present with a string value, and extra keys are rejected (the
voluptuous default `PREVENT_EXTRA`).  Nothing constrains the strings
to be non-empty. -/
def record_schema : JSON → Bool
  | .obj kvs =>
      kvs.all (fun kv =>
        (kv.1 = "name" || kv.1 = "version" || kv.1 = "type") && isStr kv.2) &&
      (jlookup "name" kvs).isSome &&
      (jlookup "version" kvs).isSome &&
      (jlookup "type" kvs).isSome
  | _ => false

/-- The top-level schema of `put_packages`: a mapping whose single
(plain, hence optional) key `packages` holds a list of records
matching `record_schema`.  The payload must be a mapping; when the
`packages` key is present its value must be a list of records
matching `record_schema`; extra top-level keys are rejected. -/
def packages_schema : JSON → Bool
  | .obj kvs =>
      kvs.all (fun kv => kv.1 = "packages") &&
      (match jlookup "packages" kvs with
       | none => true
       | some (.arr recs) => recs.all record_schema
       | some _ => false)
  | _ => false

/-- `validate_request(req_json, schema)`: applies the schema to the
decoded payload (the Python helper lets the voluptuous `Invalid`
exception propagate on failure; here the boolean records whether it
raises). -/
def validate_request (req_json : JSON) (schema : JSON → Bool) : Bool :=
  schema req_json

/-- The mutable server state: the `jobs` dict, the `job_status` dict
of per-job cursor positions into `update_status`, and the fresh-name
supply standing for `uuid4()`. -/
structure ServerState where
  jobs : List (Nat × Job)
  job_status : List (Nat × Nat)
  counter : Nat
deriving Repr

/-- The initial state: both dicts empty. -/
def initState : ServerState := { jobs := [], job_status := [], counter := 0 }

/-- Result of `PUT /request/packages`. -/
inductive SubmitResult where
  | created : Nat → SubmitResult
  | invalid : SubmitResult
deriving Repr, DecidableEq

/-- `put_packages()`: validate the payload against the schema; on
failure the exception propagates and no job is registered; on
success generate a fresh `job_id`, build and register the job and
its status cursor, and return 201 with the `job_id`. -/
def put_packages (payload : JSON) (now : Nat) (s : ServerState) :
    ServerState × SubmitResult :=
  if validate_request payload packages_schema then
    let job_id := s.counter
    ({ jobs := (job_id, build_job now) :: s.jobs
       job_status := (job_id, 0) :: s.job_status
       counter := s.counter + 1 },
     .created job_id)
  else
    (s, .invalid)

/-- Result of `GET /request/packages/<job_id>`. -/
inductive StatusResult where
  | ok : Job → StatusResult
  | notFound : StatusResult
  | exhausted : StatusResult
  | internalError : StatusResult
deriving Repr, DecidableEq

/-- `get_status(job_id)`: look the job up (`jobs.get(job_id, {})`);
for a missing job answer 404 with an empty body.  Otherwise set
`last_updated` to the current time, then draw the next status from
the job's cursor; if the generator is exhausted the `StopIteration`
propagates (`exhausted`) with `last_updated` already written; if the
cursor itself is missing, `next({})` raises a `TypeError`
(`internalError`), likewise after `last_updated` was written. -/
def get_status (job_id : Nat) (now : Nat) (s : ServerState) :
    ServerState × StatusResult :=
  match alookup job_id s.jobs with
  | none => (s, .notFound)
  | some job =>
    let job1 := { job with last_updated := now }
    match alookup job_id s.job_status with
    | none =>
        ({ s with jobs := aupdate job_id job1 s.jobs }, .internalError)
    | some i =>
        match update_status.get? i with
        | some st =>
            let job2 := { job1 with status := st }
            ({ s with jobs := aupdate job_id job2 s.jobs,
                      job_status := aupdate job_id (i + 1) s.job_status },
             .ok job2)
        | none =>
            ({ s with jobs := aupdate job_id job1 s.jobs }, .exhausted)

/-- A concrete valid submission payload: one npm package record,
matching the scenario of the spec. -/
def validPayload : JSON :=
  .obj [("packages", .arr [.obj [("name", .str "foo"), ("version", .str "1.0.0"),
    ("type", .str "npm")]])]

/-- The id field of a successful status snapshot, `none` for the
failure results. -/
def snapshotId : StatusResult → Option String
  | .ok j => some j.id
  | _ => none

/- Helper lemmas about the association-list operations. -/

theorem alookup_eq_none (k : Nat) (l : List (Nat × α))
    (h : ∀ kv ∈ l, kv.1 ≠ k) : alookup k l = none := by
  induction l with
  | nil => rfl
  | cons kv rest ih =>
      obtain ⟨a, b⟩ := kv
      have ha : a ≠ k := h (a, b) (List.mem_cons_self _ _)
      rw [alookup, if_neg (Ne.symm ha)]
      exact ih fun kv hkv => h kv (List.mem_cons_of_mem _ hkv)

theorem alookup_aupdate_ne (k k' : Nat) (v : α) (l : List (Nat × α))
    (h : k ≠ k') : alookup k (aupdate k' v l) = alookup k l := by
  induction l with
  | nil => rfl
  | cons kv rest ih =>
      obtain ⟨a, b⟩ := kv
      by_cases hk : k' = a
      · subst hk
        simp [aupdate, alookup, h]
      · simp [aupdate, hk, alookup, ih]

theorem alookup_aupdate_self (k : Nat) (v w : α) (l : List (Nat × α))
    (h : alookup k l = some w) : alookup k (aupdate k v l) = some v := by
  induction l with
  | nil => simp [alookup] at h
  | cons kv rest ih =>
      obtain ⟨a, b⟩ := kv
      by_cases hk : k = a
      · subst hk
        simp [aupdate, alookup]
      · rw [alookup, if_neg hk] at h
        rw [aupdate, if_neg hk, alookup, if_neg hk]
        exact ih h

/-- One successful poll step: when the job and its cursor sit at the
head of the two dicts and the cursor index still points into the
status sequence, `get_status` advances the cursor, stamps
`last_updated` with the clock, writes the drawn status into the
record and returns the updated snapshot with 200. -/
theorem get_status_head (jid t i c : Nat) (st : String) (job : Job)
    (jt : List (Nat × Job)) (ct : List (Nat × Nat))
    (hst : update_status[i]? = some st) :
    get_status jid t ⟨(jid, job) :: jt, (jid, i) :: ct, c⟩ =
      (⟨(jid, { job with last_updated := t, status := st }) :: jt,
        (jid, i + 1) :: ct, c⟩,
       .ok { job with last_updated := t, status := st }) := by
  simp [get_status, alookup, aupdate, hst]

/-- One exhausted poll step: when the cursor index has run off the
end of the status sequence, `get_status` stamps `last_updated` and
then the iteration fails (the `StopIteration` of `next` propagates);
the cursor stays exhausted. -/
theorem get_status_head_exhausted (jid t i c : Nat) (job : Job)
    (jt : List (Nat × Job)) (ct : List (Nat × Nat))
    (hst : update_status[i]? = none) :
    get_status jid t ⟨(jid, job) :: jt, (jid, i) :: ct, c⟩ =
      (⟨(jid, { job with last_updated := t }) :: jt, (jid, i) :: ct, c⟩,
       .exhausted) := by
  simp [get_status, alookup, aupdate, hst]

/-- Unfolding of a successful submission. -/
theorem put_packages_eq (p : JSON) (t : Nat) (s : ServerState)
    (hp : packages_schema p = true) :
    put_packages p t s =
      (⟨(s.counter, build_job t) :: s.jobs, (s.counter, 0) :: s.job_status,
        s.counter + 1⟩, .created s.counter) := by
  simp [put_packages, validate_request, hp]

/-- Inversion of a successful submission: the hypothesis that
`put_packages` answered 201 forces the payload to pass the schema
and determines the output state and the issued id. -/
theorem put_packages_inv (p : JSON) (t : Nat) (s s1 : ServerState) (jid : Nat)
    (h : put_packages p t s = (s1, .created jid)) :
    packages_schema p = true ∧ jid = s.counter ∧
      s1 = ⟨(s.counter, build_job t) :: s.jobs, (s.counter, 0) :: s.job_status,
        s.counter + 1⟩ := by
  cases hv : packages_schema p with
  | false => simp [put_packages, validate_request, hv] at h
  | true =>
      rw [put_packages_eq p t s hv] at h
      obtain ⟨h1, h2⟩ := Prod.mk.injEq .. ▸ h
      exact ⟨rfl, (SubmitResult.created.injEq .. ▸ h2).symm, h1.symm⟩

/-- A submission payload whose single record misses the `version`
and `type` fields (the rejection scenario of the spec). -/
def missingFieldsPayload : JSON :=
  .obj [("packages", .arr [.obj [("name", .str "foo")]])]

/-- Claim C1: for every job created by a successful submit,
successive status polls on its job id observe the status values
NEW, then PENDING, then COMPLETED, in exactly that order, never
skipping or repeating a value, and the `last_updated` field of the
returned snapshot is non-decreasing across those calls, assuming a
non-decreasing clock. -/
theorem C1_status_sequence (s s1 : ServerState) (p : JSON) (t0 t1 t2 t3 : Nat)
    (jid : Nat) (h12 : t1 ≤ t2) (h23 : t2 ≤ t3)
    (hsub : put_packages p t0 s = (s1, .created jid)) :
    ∃ s2 j1 s3 j2 s4 j3,
      get_status jid t1 s1 = (s2, .ok j1) ∧ j1.status = "NEW" ∧
        j1.last_updated = t1 ∧
      get_status jid t2 s2 = (s3, .ok j2) ∧ j2.status = "PENDING" ∧
        j2.last_updated = t2 ∧
      get_status jid t3 s3 = (s4, .ok j3) ∧ j3.status = "COMPLETED" ∧
        j3.last_updated = t3 ∧
      j1.last_updated ≤ j2.last_updated ∧ j2.last_updated ≤ j3.last_updated := by
  obtain ⟨hp, hjid, hs1⟩ := put_packages_inv p t0 s s1 jid hsub
  subst hjid
  subst hs1
  exact ⟨_, _, _, _, _, _,
    get_status_head _ t1 0 _ "NEW" (build_job t0) s.jobs s.job_status rfl,
    rfl, rfl,
    get_status_head _ t2 1 _ "PENDING" _ s.jobs s.job_status rfl,
    rfl, rfl,
    get_status_head _ t3 2 _ "COMPLETED" _ s.jobs s.job_status rfl,
    rfl, rfl, h12, h23⟩

/-- Witness for C1: a concrete run from the empty state with the
scenario payload, polled at clocks 1, 2, 3. -/
theorem C1_status_sequence_witness :
    ∃ s2 j1 s3 j2 s4 j3,
      get_status 0 1 (put_packages validPayload 0 initState).1 = (s2, .ok j1) ∧
        j1.status = "NEW" ∧ j1.last_updated = 1 ∧
      get_status 0 2 s2 = (s3, .ok j2) ∧ j2.status = "PENDING" ∧
        j2.last_updated = 2 ∧
      get_status 0 3 s3 = (s4, .ok j3) ∧ j3.status = "COMPLETED" ∧
        j3.last_updated = 3 ∧
      j1.last_updated ≤ j2.last_updated ∧ j2.last_updated ≤ j3.last_updated :=
  C1_status_sequence initState (put_packages validPayload 0 initState).1
    validPayload 0 1 2 3 0 (by decide) (by decide) rfl

/-- Claim C2: every valid submission is answered 201 with a job id
fresh with respect to every id previously issued (modelled by the
invariant that all stored keys lie below the fresh-name counter,
`uuid4` being embedded as a fresh-name supply), and an immediate
status call on that id succeeds rather than answering 404. -/
theorem C2_fresh_id (p : JSON) (t tp : Nat) (s : ServerState)
    (hp : packages_schema p = true)
    (hb : ∀ kv ∈ s.jobs, kv.1 < s.counter) :
    ∃ s1 jid, put_packages p t s = (s1, .created jid) ∧
      (∀ kv ∈ s.jobs, kv.1 ≠ jid) ∧
      alookup jid s.jobs = none ∧
      (∀ kv ∈ s1.jobs, kv.1 < s1.counter) ∧
      ∃ s2 j, get_status jid tp s1 = (s2, .ok j) := by
  refine ⟨_, s.counter, put_packages_eq p t s hp, ?_, ?_, ?_, ?_⟩
  · exact fun kv hkv => Nat.ne_of_lt (hb kv hkv)
  · exact alookup_eq_none _ _ fun kv hkv => Nat.ne_of_lt (hb kv hkv)
  · intro kv hkv
    rcases List.mem_cons.1 hkv with h1 | h1
    · rw [h1]
      exact Nat.lt_succ_self _
    · exact Nat.lt_succ_of_lt (hb kv h1)
  · exact ⟨_, _, get_status_head _ tp 0 _ "NEW" (build_job t) s.jobs s.job_status rfl⟩

/-- Witness for C2: the scenario payload submitted to the empty
state. -/
theorem C2_fresh_id_witness :
    ∃ s1 jid, put_packages validPayload 0 initState = (s1, .created jid) ∧
      (∀ kv ∈ initState.jobs, kv.1 ≠ jid) ∧
      alookup jid initState.jobs = none ∧
      (∀ kv ∈ s1.jobs, kv.1 < s1.counter) ∧
      ∃ s2 j, get_status jid 1 s1 = (s2, .ok j) :=
  C2_fresh_id validPayload 0 1 initState rfl (by simp [initState])

/-- Claim C3: once three status polls have drawn NEW, PENDING and
COMPLETED, any further poll on the same job id does not return a
normal snapshot: the status cursor is exhausted and the poll ends in
the error condition (the `StopIteration` of the drained generator),
and stays so on yet another poll. -/
theorem C3_exhaustion (s s1 : ServerState) (p : JSON)
    (t0 t1 t2 t3 t4 t5 : Nat) (jid : Nat)
    (hsub : put_packages p t0 s = (s1, .created jid)) :
    ∃ s2 j1 s3 j2 s4 j3 s5,
      get_status jid t1 s1 = (s2, .ok j1) ∧
      get_status jid t2 s2 = (s3, .ok j2) ∧
      get_status jid t3 s3 = (s4, .ok j3) ∧
      j1.status = "NEW" ∧ j2.status = "PENDING" ∧ j3.status = "COMPLETED" ∧
      get_status jid t4 s4 = (s5, .exhausted) ∧
      (get_status jid t5 s5).2 = .exhausted := by
  obtain ⟨hp, hjid, hs1⟩ := put_packages_inv p t0 s s1 jid hsub
  subst hjid
  subst hs1
  refine ⟨_, _, _, _, _, _, _,
    get_status_head _ t1 0 _ "NEW" (build_job t0) s.jobs s.job_status rfl,
    get_status_head _ t2 1 _ "PENDING" _ s.jobs s.job_status rfl,
    get_status_head _ t3 2 _ "COMPLETED" _ s.jobs s.job_status rfl,
    rfl, rfl, rfl,
    get_status_head_exhausted _ t4 3 _ _ s.jobs s.job_status rfl, ?_⟩
  rw [get_status_head_exhausted _ t5 3 _ _ s.jobs s.job_status rfl]

/-- Witness for C3: the concrete run of C1 continued with a fourth
and a fifth poll. -/
theorem C3_exhaustion_witness :
    ∃ s2 j1 s3 j2 s4 j3 s5,
      get_status 0 1 (put_packages validPayload 0 initState).1 = (s2, .ok j1) ∧
      get_status 0 2 s2 = (s3, .ok j2) ∧
      get_status 0 3 s3 = (s4, .ok j3) ∧
      j1.status = "NEW" ∧ j2.status = "PENDING" ∧ j3.status = "COMPLETED" ∧
      get_status 0 4 s4 = (s5, .exhausted) ∧
      (get_status 0 5 s5).2 = .exhausted :=
  C3_exhaustion initState (put_packages validPayload 0 initState).1
    validPayload 0 1 2 3 4 5 0 rfl

/-- Claim C5: validation-then-create is atomic.  A submission that
fails the schema leaves the server state exactly as it was — the
job dict, the cursor dict and the counter are untouched — and any
later status poll answers exactly as it would have before the
failed submit. -/
theorem C5_atomic_validation (p : JSON) (t jid tp : Nat) (s : ServerState)
    (hp : packages_schema p = false) :
    put_packages p t s = (s, .invalid) ∧
    get_status jid tp (put_packages p t s).1 = get_status jid tp s := by
  have h : put_packages p t s = (s, .invalid) := by
    simp [put_packages, validate_request, hp]
  exact ⟨h, by rw [h]⟩

/-- Witness for C5: the rejection-scenario payload (record missing
`version` and `type`) against the empty state. -/
theorem C5_atomic_validation_witness :
    put_packages missingFieldsPayload 7 initState = (initState, .invalid) ∧
    get_status 0 8 (put_packages missingFieldsPayload 7 initState).1 =
      get_status 0 8 initState :=
  C5_atomic_validation missingFieldsPayload 7 0 8 initState rfl

/-- Claim C7: a status poll on a job id that is not a key of the
job dict answers 404 with the empty payload, raising nothing to the
caller, and leaves the state untouched. -/
theorem C7_not_found (jid t : Nat) (s : ServerState)
    (h : alookup jid s.jobs = none) :
    get_status jid t s = (s, .notFound) := by
  simp [get_status, h]

/-- Witness for C7: polling an id on the empty state. -/
theorem C7_not_found_witness :
    get_status 0 5 initState = (initState, .notFound) :=
  C7_not_found 0 5 initState rfl

/-- Claim C10: the content of a created job is independent of the
submitted package list.  Any two valid payloads register the exact
same state change, and the stored record is `build_job` of the
clock: fixed literal `id` and `user_id`, displayed status PENDING,
and the fixed package tree of one npm package `foo` 1.0.0 with
dependencies `bar` and `baz`; only the store key and the timestamps
vary between submissions. -/
theorem C10_fixed_content (p q : JSON) (t : Nat) (s : ServerState)
    (hp : packages_schema p = true) (hq : packages_schema q = true) :
    put_packages p t s = put_packages q t s ∧
    put_packages p t s =
      (⟨(s.counter, build_job t) :: s.jobs, (s.counter, 0) :: s.job_status,
        s.counter + 1⟩, .created s.counter) ∧
    (build_job t).id = "59482a54-423b-448d-8325-f171c9dc336b" ∧
    (build_job t).user_id = "86bb664a-5331-489b-8901-f052f155ec79" ∧
    (build_job t).status = "PENDING" ∧
    (build_job t).started_at = t ∧ (build_job t).last_updated = t ∧
    (build_job t).packages.map (fun pk => (pk.name, pk.version, pk.pkgtype)) =
      [("foo", "1.0.0", "npm")] ∧
    (build_job t).packages.map
        (fun pk => pk.dependencies.map fun d => (d.name, d.version, d.pkgtype)) =
      [[("bar", "2.3.4", "npm"), ("baz", "9.8.7", "npm")]] := by
  refine ⟨?_, put_packages_eq p t s hp, rfl, rfl, rfl, rfl, rfl, rfl, rfl⟩
  rw [put_packages_eq p t s hp, put_packages_eq q t s hq]

/-- Witness for C10: the scenario payload and the empty-object
payload (both pass the schema) registered at clock 4. -/
theorem C10_fixed_content_witness :
    put_packages validPayload 4 initState = put_packages (JSON.obj []) 4 initState ∧
    put_packages validPayload 4 initState =
      (⟨(initState.counter, build_job 4) :: initState.jobs,
        (initState.counter, 0) :: initState.job_status, initState.counter + 1⟩,
       .created initState.counter) ∧
    (build_job 4).id = "59482a54-423b-448d-8325-f171c9dc336b" ∧
    (build_job 4).user_id = "86bb664a-5331-489b-8901-f052f155ec79" ∧
    (build_job 4).status = "PENDING" ∧
    (build_job 4).started_at = 4 ∧ (build_job 4).last_updated = 4 ∧
    (build_job 4).packages.map (fun pk => (pk.name, pk.version, pk.pkgtype)) =
      [("foo", "1.0.0", "npm")] ∧
    (build_job 4).packages.map
        (fun pk => pk.dependencies.map fun d => (d.name, d.version, d.pkgtype)) =
      [[("bar", "2.3.4", "npm"), ("baz", "9.8.7", "npm")]] :=
  C10_fixed_content validPayload (JSON.obj []) 4 initState rfl rfl

/-- The state after two submissions of the scenario payload, at
clocks 0 and 1: jobs 0 and 1 are registered. -/
def twoJobsState : ServerState :=
  (put_packages validPayload 1 (put_packages validPayload 0 initState).1).1

/-- A submission payload whose single record carries empty strings
in all three fields. -/
def emptyStringPayload : JSON :=
  .obj [("packages", .arr [.obj [("name", .str ""), ("version", .str ""),
    ("type", .str "")]])]

/-- 404 branch of `get_status`: unknown key. -/
theorem get_status_none (jid t : Nat) (s : ServerState)
    (hj : alookup jid s.jobs = none) :
    get_status jid t s = (s, .notFound) := by
  simp [get_status, hj]

/-- Missing-cursor branch of `get_status`: the job exists but its
cursor does not; `last_updated` is stamped, then the iteration
fails. -/
theorem get_status_cursor_missing (jid t : Nat) (s : ServerState) (job : Job)
    (hj : alookup jid s.jobs = some job)
    (hc : alookup jid s.job_status = none) :
    get_status jid t s =
      ({ s with jobs := aupdate jid { job with last_updated := t } s.jobs },
       .internalError) := by
  simp [get_status, hj, hc]

/-- Successful branch of `get_status`. -/
theorem get_status_ok (jid t i : Nat) (st : String) (s : ServerState) (job : Job)
    (hj : alookup jid s.jobs = some job)
    (hc : alookup jid s.job_status = some i)
    (hst : update_status[i]? = some st) :
    get_status jid t s =
      ({ s with
          jobs := aupdate jid { job with last_updated := t, status := st } s.jobs,
          job_status := aupdate jid (i + 1) s.job_status },
       .ok { job with last_updated := t, status := st }) := by
  simp [get_status, hj, hc, hst]

/-- Exhausted branch of `get_status`: the cursor index has run off
the status sequence; `last_updated` is stamped, then the draw
fails. -/
theorem get_status_exhausted_eq (jid t i : Nat) (s : ServerState) (job : Job)
    (hj : alookup jid s.jobs = some job)
    (hc : alookup jid s.job_status = some i)
    (hst : update_status[i]? = none) :
    get_status jid t s =
      ({ s with jobs := aupdate jid { job with last_updated := t } s.jobs },
       .exhausted) := by
  simp [get_status, hj, hc, hst]

/-- A status poll never changes the `id` field of any stored job:
whatever branch `get_status` takes, looking any key up afterwards
yields a record with the same `id` as before. -/
theorem get_status_preserves_id (jid tp k : Nat) (s : ServerState) :
    (alookup k (get_status jid tp s).1.jobs).map Job.id =
      (alookup k s.jobs).map Job.id := by
  cases hj : alookup jid s.jobs with
  | none => rw [get_status_none jid tp s hj]
  | some job =>
    have halt : ∀ j2 : Job, j2.id = job.id →
        (alookup k (aupdate jid j2 s.jobs)).map Job.id =
          (alookup k s.jobs).map Job.id := by
      intro j2 hid
      by_cases hk : k = jid
      · subst hk
        rw [alookup_aupdate_self _ _ _ _ hj, hj]
        simp [hid]
      · rw [alookup_aupdate_ne _ _ _ _ hk]
    cases hc : alookup jid s.job_status with
    | none =>
        simp only [get_status_cursor_missing jid tp s job hj hc]
        exact halt _ rfl
    | some i =>
      cases hst : update_status[i]? with
      | none =>
          simp only [get_status_exhausted_eq jid tp i s job hj hc hst]
          exact halt _ rfl
      | some st =>
          simp only [get_status_ok jid tp i st s job hj hc hst]
          exact halt _ rfl

/-- Claim C8: a successful status poll on a job mutates only its
`status` and `last_updated` fields — `id`, `user_id`, `started_at`
and the whole `packages` tree are unchanged — and every other key
keeps its stored record and its state cursor: advancing one job
never affects another. -/
theorem C8_frame (jid t k : Nat) (s s1 : ServerState) (j : Job)
    (hk : k ≠ jid)
    (h : get_status jid t s = (s1, .ok j)) :
    (∃ j0, alookup jid s.jobs = some j0 ∧
      j.id = j0.id ∧ j.user_id = j0.user_id ∧ j.started_at = j0.started_at ∧
      j.packages = j0.packages ∧ alookup jid s1.jobs = some j) ∧
    s1.counter = s.counter ∧
    alookup k s1.jobs = alookup k s.jobs ∧
    alookup k s1.job_status = alookup k s.job_status := by
  cases hj : alookup jid s.jobs with
  | none =>
      rw [get_status_none jid t s hj] at h
      simp at h
  | some job =>
    cases hc : alookup jid s.job_status with
    | none =>
        rw [get_status_cursor_missing jid t s job hj hc] at h
        simp at h
    | some i =>
      cases hst : update_status[i]? with
      | none =>
          rw [get_status_exhausted_eq jid t i s job hj hc hst] at h
          simp at h
      | some st =>
        rw [get_status_ok jid t i st s job hj hc hst] at h
        simp only [Prod.mk.injEq, StatusResult.ok.injEq] at h
        obtain ⟨h1, h2⟩ := h
        subst h2
        subst h1
        refine ⟨⟨job, rfl, rfl, rfl, rfl, rfl, ?_⟩, rfl, ?_, ?_⟩
        · exact alookup_aupdate_self _ _ _ _ hj
        · exact alookup_aupdate_ne _ _ _ _ hk
        · exact alookup_aupdate_ne _ _ _ _ hk

/-- Witness for C8: in the two-job state, polling job 1 at clock 2
leaves job 0 fully untouched and preserves the immutable fields of
job 1. -/
theorem C8_frame_witness :
    (∃ j0, alookup 1 twoJobsState.jobs = some j0 ∧
      ({ build_job 1 with last_updated := 2, status := "NEW" } : Job).id = j0.id ∧
      ({ build_job 1 with last_updated := 2, status := "NEW" } : Job).user_id =
        j0.user_id ∧
      ({ build_job 1 with last_updated := 2, status := "NEW" } : Job).started_at =
        j0.started_at ∧
      ({ build_job 1 with last_updated := 2, status := "NEW" } : Job).packages =
        j0.packages ∧
      alookup 1 (get_status 1 2 twoJobsState).1.jobs =
        some { build_job 1 with last_updated := 2, status := "NEW" }) ∧
    (get_status 1 2 twoJobsState).1.counter = twoJobsState.counter ∧
    alookup 0 (get_status 1 2 twoJobsState).1.jobs = alookup 0 twoJobsState.jobs ∧
    alookup 0 (get_status 1 2 twoJobsState).1.job_status =
      alookup 0 twoJobsState.job_status :=
  C8_frame 1 2 0 twoJobsState (get_status 1 2 twoJobsState).1
    { build_job 1 with last_updated := 2, status := "NEW" } (by decide) rfl

/-- Counterexample to claim C6 as stated: two distinct successful
submits (issued job ids 0 and 1) whose status snapshots both carry
the very same literal `id` field — the `id` fields of the snapshots
of distinct jobs are not distinct. -/
theorem C6_counterexample :
    (put_packages validPayload 0 initState).2 = .created 0 ∧
    (put_packages validPayload 1 (put_packages validPayload 0 initState).1).2 =
      .created 1 ∧
    snapshotId (get_status 0 2 twoJobsState).2 =
      some "59482a54-423b-448d-8325-f171c9dc336b" ∧
    snapshotId (get_status 1 3 (get_status 0 2 twoJobsState).1).2 =
      some "59482a54-423b-448d-8325-f171c9dc336b" :=
  ⟨rfl, rfl, rfl, rfl⟩

/-- Claim C6 (amended): the store keys issued by two distinct
successful submits are distinct, each job's stored `id` field never
changes after creation (a status poll preserves it), and that `id`
field holds the same fixed literal for every job. -/
theorem C6_amended (s s1 s2 s3 : ServerState) (p q : JSON) (t u tp : Nat)
    (j1 j2 : Nat) (r : StatusResult)
    (h1 : put_packages p t s = (s1, .created j1))
    (h2 : put_packages q u s1 = (s2, .created j2))
    (h3 : get_status j1 tp s2 = (s3, r)) :
    j1 ≠ j2 ∧
    (alookup j1 s3.jobs).map Job.id = (alookup j1 s2.jobs).map Job.id ∧
    (alookup j1 s2.jobs).map Job.id =
      some "59482a54-423b-448d-8325-f171c9dc336b" ∧
    (alookup j2 s2.jobs).map Job.id =
      some "59482a54-423b-448d-8325-f171c9dc336b" := by
  obtain ⟨hp, hj1, hs1⟩ := put_packages_inv p t s s1 j1 h1
  subst hj1
  subst hs1
  obtain ⟨hq, hj2, hs2⟩ := put_packages_inv q u _ s2 j2 h2
  subst hj2
  subst hs2
  refine ⟨Nat.ne_of_lt (Nat.lt_succ_self _), ?_, ?_, ?_⟩
  · have hfst := congrArg Prod.fst h3
    dsimp only at hfst
    rw [← hfst]
    exact get_status_preserves_id _ tp _ _
  · have hne : s.counter ≠ s.counter + 1 := Nat.ne_of_lt (Nat.lt_succ_self _)
    show (alookup s.counter ((s.counter + 1, build_job u) ::
        (s.counter, build_job t) :: s.jobs)).map Job.id = _
    simp [alookup, hne, build_job]
  · show (alookup (s.counter + 1) ((s.counter + 1, build_job u) ::
        (s.counter, build_job t) :: s.jobs)).map Job.id = _
    simp [alookup, build_job]

/-- Witness for C6 (amended): the two-job state polled on job 0 at
clock 2. -/
theorem C6_amended_witness :
    (0 : Nat) ≠ 1 ∧
    (alookup 0 (get_status 0 2 twoJobsState).1.jobs).map Job.id =
      (alookup 0 twoJobsState.jobs).map Job.id ∧
    (alookup 0 twoJobsState.jobs).map Job.id =
      some "59482a54-423b-448d-8325-f171c9dc336b" ∧
    (alookup 1 twoJobsState.jobs).map Job.id =
      some "59482a54-423b-448d-8325-f171c9dc336b" :=
  C6_amended initState (put_packages validPayload 0 initState).1 twoJobsState
    (get_status 0 2 twoJobsState).1 validPayload validPayload 0 1 2 0 1
    (get_status 0 2 twoJobsState).2 rfl rfl rfl

/-- The record schema as a proposition: a mapping whose keys all
come from `name`, `version`, `type` with string values (so no extra
keys), each of the three keys being present.  Empty strings are not
excluded. -/
def RecordMatches (r : JSON) : Prop :=
  ∃ kvs, r = JSON.obj kvs ∧
    (∀ kv ∈ kvs, (kv.1 = "name" ∨ kv.1 = "version" ∨ kv.1 = "type") ∧
      ∃ sv, kv.2 = JSON.str sv) ∧
    (∃ v, jlookup "name" kvs = some v) ∧
    (∃ v, jlookup "version" kvs = some v) ∧
    (∃ v, jlookup "type" kvs = some v)

/-- The submission schema as a proposition: a mapping whose only
possible top-level key is `packages`; that key may be absent, and
when present its value is a sequence of records each matching
`RecordMatches`. -/
def PayloadMatches (p : JSON) : Prop :=
  ∃ kvs, p = JSON.obj kvs ∧ (∀ kv ∈ kvs, kv.1 = "packages") ∧
    ∀ v, jlookup "packages" kvs = some v →
      ∃ recs, v = JSON.arr recs ∧ ∀ r ∈ recs, RecordMatches r

theorem isStr_iff (v : JSON) : isStr v = true ↔ ∃ sv, v = JSON.str sv := by
  cases v <;> simp [isStr]

theorem record_schema_iff (r : JSON) : record_schema r = true ↔ RecordMatches r := by
  unfold RecordMatches
  cases r <;>
    simp [record_schema, List.all_eq_true, isStr_iff, Option.isSome_iff_exists,
      and_assoc, or_assoc]

theorem packages_schema_iff (p : JSON) :
    packages_schema p = true ↔ PayloadMatches p := by
  unfold PayloadMatches
  cases p <;> simp [packages_schema, List.all_eq_true]
  case obj kvs =>
    cases hl : jlookup "packages" kvs with
    | none => simp
    | some v =>
        cases v <;> simp [record_schema_iff, List.all_eq_true]

/-- Counterexample to claim C4 as stated: a payload with no
`packages` key at all passes the schema and creates a job, and so
does a payload whose record carries empty strings in `name`,
`version` and `type` — neither is rejected. -/
theorem C4_counterexample :
    packages_schema (JSON.obj []) = true ∧
    (put_packages (JSON.obj []) 0 initState).2 = .created 0 ∧
    alookup 0 (put_packages (JSON.obj []) 0 initState).1.jobs =
      some (build_job 0) ∧
    packages_schema emptyStringPayload = true ∧
    (put_packages emptyStringPayload 0 initState).2 = .created 0 :=
  ⟨rfl, rfl, rfl, rfl, rfl⟩

/-- Claim C4 (amended): submit fails with a validation error if and
only if the decoded payload does not match the schema actually
enforced: a top-level mapping with no key other than `packages`,
whose `packages` value — the key itself is optional — is a sequence
of records, each record a mapping with exactly the string-valued
fields `name`, `version` and `type`, all three present but possibly
empty.  A record missing one of the three fields is rejected; a
payload missing the `packages` key, or with empty-string field
values, is accepted. -/
theorem C4_amended_validation (p : JSON) (t : Nat) (s : ServerState) :
    (put_packages p t s).2 = .invalid ↔ ¬ PayloadMatches p := by
  rw [← packages_schema_iff]
  cases hv : packages_schema p with
  | true => simp [put_packages, validate_request, hv]
  | false => simp [put_packages, validate_request, hv]

end MockServer
